import Mathlib

/-!
Verification of `vida_semanas_streamlit.py` ("Sua Vida em Semanas").

Shallow embedding conventions:
* A calendar datetime at midnight is modelled by its proleptic Gregorian
  ordinal (the number Python's `date.toordinal` returns), as an `Int` when it
  takes part in subtraction.  `datetime` subtraction of two midnights then is
  ordinal subtraction, and `timedelta.days` of that difference is exactly the
  ordinal difference.
* Python `//` on `int` is floor division, modelled by `Int.fdiv`.
* Python `int(x)` applied to the non-negative float `semanas_vividas / 52`
  is modelled by `Nat` division by 52: for week counts below 2^40 the float
  quotient is within 2^-12 of the rational value, so truncation agrees with
  integer floor division.
* Python lists of dicts become `List` of structures with the same field names.
-/

namespace VidaSemanas

/-- Leap-year test of the proleptic Gregorian calendar (Python
`calendar.isleap`, used internally by `datetime.date`). -/
def eh_bissexto (y : Nat) : Bool :=
  y % 4 == 0 && (y % 100 != 0 || y % 400 == 0)

/-- Days before the first of month `m` in a non-leap year
(Python `datetime._DAYS_BEFORE_MONTH`, index 1..12). -/
def dias_antes_mes (m : Nat) : Nat :=
  [0, 0, 31, 59, 90, 120, 151, 181, 212, 243, 273, 304, 334].getD m 0

/-- Proleptic Gregorian ordinal of the date `y-m-d` (Python
`date(y, m, d).toordinal()`; `toordinal 1 1 1 = 1`). -/
def toordinal (y m d : Nat) : Nat :=
  (y - 1) * 365 + (y - 1) / 4 - (y - 1) / 100 + (y - 1) / 400
    + dias_antes_mes m + (if 2 < m && eh_bissexto y then 1 else 0) + d

/-- `calcular_semanas_vividas` (lines 16-23): `(data_atual - data_nascimento).days // 7`.
Dates are ordinals; Python `//` is floor division, i.e. `Int.fdiv`. -/
def calcular_semanas_vividas (data_nascimento data_atual : Int) : Int :=
  (data_atual - data_nascimento).fdiv 7

/-- One cell of the life grid: the dict built at lines 44-49. -/
structure WeekCell where
  ano : Nat
  semana : Nat
  semana_absoluta : Nat
  status : String
deriving DecidableEq

/-- `criar_grid_vida` (lines 25-52): `expectativa_vida` rows of 52 cells,
cell `(ano, semana)` has `semana_absoluta = ano * 52 + semana` and status
`'vivida'` when `semana_absoluta < semanas_vividas`, else `'futura'`.
`semanas_vividas` is a Python `int`, so it is an `Int` here (it can be
negative and the comparison at line 39 still happens). -/
def criar_grid_vida (semanas_vividas : Int) (expectativa_vida : Nat) :
    List (List WeekCell) :=
  (List.range expectativa_vida).map fun ano =>
    (List.range 52).map fun semana =>
      { ano := ano, semana := semana, semana_absoluta := ano * 52 + semana,
        status := if ((ano * 52 + semana : Nat) : Int) < semanas_vividas
                  then "vivida" else "futura" }

/-- `total_semanas` (line 147): `expectativa_vida * 52`. -/
def total_semanas (expectativa_vida : Nat) : Nat :=
  expectativa_vida * 52

/-- `semanas_restantes` (line 148): `total_semanas - semanas_vividas`,
a plain Python `int` subtraction with no clamping. -/
def semanas_restantes (semanas_vividas : Int) (expectativa_vida : Nat) : Int :=
  (total_semanas expectativa_vida : Int) - semanas_vividas

/-- Number of cells of a grid whose status is `'vivida'`. -/
def contar_vividas (grid_data : List (List WeekCell)) : Nat :=
  (grid_data.map fun linha => linha.countP fun c => c.status == "vivida").sum

/-- One row of the decade analysis table (the dict built at lines 218-223,
with the raw week count before string formatting). -/
structure PeriodoDados where
  inicio_ano : Nat
  fim_ano : Nat
  semanas_periodo : Nat
  semanas_vividas_periodo : Int
deriving DecidableEq

/-- The decade analysis loop (lines 209-223):
`for i in range(0, min(expectativa_vida, int(idade_atual) + 10), 10)` with
`idade_atual = semanas_vividas / 52`, building for each bucket its year range,
week count and clamped lived-week count.  `range(0, n, 10)` enumerates
`j * 10` for `j < ⌈n / 10⌉ = (n + 9) / 10`. -/
def analise_decadas (semanas_vividas expectativa_vida : Nat) : List PeriodoDados :=
  (List.range ((min expectativa_vida (semanas_vividas / 52 + 10) + 9) / 10)).map
    fun j =>
      { inicio_ano := j * 10,
        fim_ano := min (j * 10 + 10) expectativa_vida,
        semanas_periodo := (min (j * 10 + 10) expectativa_vida - j * 10) * 52,
        semanas_vividas_periodo :=
          max 0 (min ((semanas_vividas : Int) - (j * 10) * 52)
            ((min (j * 10 + 10) expectativa_vida - j * 10) * 52 : Nat)) }

/-- One row of the CSV export (lines 249-255).  `Data_Aproximada` is the
ordinal of `data_nascimento + timedelta(weeks=semana_absoluta)`, i.e.
`data_nascimento + 7 * semana_absoluta` days. -/
structure LinhaCSV where
  ano : Nat
  semana_do_ano : Nat
  semana_absoluta : Nat
  status : String
  data_aproximada : Int
deriving DecidableEq

/-- The CSV building loop (lines 246-255): one row per grid cell, in grid
order, with 1-based `Ano`, `Semana_do_Ano` and `Semana_Absoluta`. -/
def gerar_dados_csv (data_nascimento : Int) (grid_data : List (List WeekCell)) :
    List LinhaCSV :=
  (grid_data.map fun linha => linha.map fun c =>
    { ano := c.ano + 1, semana_do_ano := c.semana + 1,
      semana_absoluta := c.semana_absoluta + 1, status := c.status,
      data_aproximada := data_nascimento + 7 * (c.semana_absoluta : Int) }).flatten

/-! ## Helper lemmas -/

/-- Every cell of the grid records its own coordinates, its absolute week
index `ano * 52 + semana`, and the status the comparison at line 39 gives. -/
lemma grid_mem_spec (w : Int) (e : Nat) :
    ∀ linha ∈ criar_grid_vida w e, ∀ c ∈ linha,
      c.ano < e ∧ c.semana < 52 ∧ c.semana_absoluta = c.ano * 52 + c.semana ∧
      c.status = if (c.semana_absoluta : Int) < w then "vivida" else "futura" := by
  intro linha hl c hc
  simp only [criar_grid_vida, List.mem_map, List.mem_range] at hl
  obtain ⟨ano, hano, rfl⟩ := hl
  simp only [List.mem_map, List.mem_range] at hc
  obtain ⟨semana, hsem, rfl⟩ := hc
  exact ⟨hano, hsem, rfl, rfl⟩

/-- Counting the `s < n` with `a + s < w` gives `min n (w - a)`. -/
lemma countP_range_lt (w a n : Nat) :
    (List.range n).countP (fun s => decide (a + s < w)) = min n (w - a) := by
  induction n with
  | zero => simp
  | succ n ih =>
    rw [List.range_succ, List.countP_append, ih]
    by_cases h : a + n < w <;> simp [List.countP_cons, h] <;> omega

/-- The grid of `criar_grid_vida` splits row-wise at the last year. -/
lemma criar_grid_vida_succ (w : Int) (e : Nat) :
    criar_grid_vida w (e + 1) = criar_grid_vida w e ++
      [(List.range 52).map fun semana =>
        ({ ano := e, semana := semana, semana_absoluta := e * 52 + semana,
           status := if ((e * 52 + semana : Nat) : Int) < w
                     then "vivida" else "futura" } : WeekCell)] := by
  unfold criar_grid_vida
  have h : List.range (e + 1) = List.range e ++ [e] := List.range_succ e
  rw [h, List.map_append, List.map_cons, List.map_nil]

/-- A single grid row for year `ano` has `min 52 (w - ano * 52)` cells with
status `'vivida'` when the lived-week count is the natural number `w`. -/
lemma row_countP_vividas (w : Nat) (ano : Nat) :
    ((List.range 52).map fun semana =>
        ({ ano := ano, semana := semana, semana_absoluta := ano * 52 + semana,
           status := if ((ano * 52 + semana : Nat) : Int) < (w : Int)
                     then "vivida" else "futura" } : WeekCell)).countP
      (fun c => c.status == "vivida") = min 52 (w - ano * 52) := by
  rw [List.countP_map]
  have hpred : ((fun c : WeekCell => c.status == "vivida") ∘ fun semana =>
      ({ ano := ano, semana := semana, semana_absoluta := ano * 52 + semana,
         status := if ((ano * 52 + semana : Nat) : Int) < (w : Int)
                   then "vivida" else "futura" } : WeekCell)) =
      fun semana => decide (ano * 52 + semana < w) := by
    funext s
    simp only [Function.comp]
    by_cases h : ano * 52 + s < w
    · rw [if_pos (by exact_mod_cast h)]
      simp [h]
    · rw [if_neg (by exact_mod_cast h)]
      simp [h]
  rw [hpred, countP_range_lt]

/-- Total `'vivida'` count of the whole grid: `min w (e * 52)`. -/
lemma contar_vividas_grid (w e : Nat) :
    contar_vividas (criar_grid_vida (w : Int) e) = min w (e * 52) := by
  induction e with
  | zero => simp [contar_vividas, criar_grid_vida]
  | succ e ih =>
    rw [criar_grid_vida_succ]
    unfold contar_vividas at *
    rw [List.map_append, List.sum_append, ih, List.map_cons, List.map_nil,
        row_countP_vividas]
    simp only [List.sum_cons, List.sum_nil]
    omega

/-- The CSV rows of a concatenation of grids concatenate. -/
lemma gerar_dados_csv_append (nasc : Int) (a b : List (List WeekCell)) :
    gerar_dados_csv nasc (a ++ b) =
      gerar_dados_csv nasc a ++ gerar_dados_csv nasc b := by
  unfold gerar_dados_csv
  rw [List.map_append, List.flatten_append]

/-- Closed form of the CSV export of a full grid: one row per absolute week
index `i < e * 52`, in increasing order of `i`. -/
lemma gerar_dados_csv_closed (nasc w : Int) (e : Nat) :
    gerar_dados_csv nasc (criar_grid_vida w e) =
      (List.range (e * 52)).map fun i =>
        ({ ano := i / 52 + 1, semana_do_ano := i % 52 + 1,
           semana_absoluta := i + 1,
           status := if ((i : Nat) : Int) < w then "vivida" else "futura",
           data_aproximada := nasc + 7 * ((i : Nat) : Int) } : LinhaCSV) := by
  induction e with
  | zero => rfl
  | succ e ih =>
    rw [criar_grid_vida_succ, gerar_dados_csv_append, ih]
    have hrange : List.range ((e + 1) * 52) = List.range (e * 52) ++
        (List.range 52).map fun x => e * 52 + x := by
      have h : (e + 1) * 52 = e * 52 + 52 := by ring
      rw [h, List.range_add]
    rw [hrange, List.map_append]
    congr 1
    unfold gerar_dados_csv
    rw [List.map_cons, List.map_nil, List.map_map, List.map_map]
    simp only [List.flatten_cons, List.flatten_nil, List.append_nil]
    apply List.map_congr_left
    intro s hs
    rw [List.mem_range] at hs
    simp only [Function.comp]
    have hdiv : (e * 52 + s) / 52 = e := by omega
    have hmod : (e * 52 + s) % 52 = s := by omega
    simp only [LinhaCSV.mk.injEq, hdiv, hmod]

end VidaSemanas

namespace VidaSemanas

/-! ## Claim theorems -/

/-- Claim C6: the CSV export of the grid contains exactly
`expectativa_vida * 52` rows, and the row at 0-based index `i` has 1-based
`Ano = i / 52 + 1`, `Semana_do_Ano = i % 52 + 1`, `Semana_Absoluta = i + 1`,
the cell's `'vivida'`/`'futura'` status, and approximate date equal to the
birth date plus `i` weeks (`7 * i` days). -/
theorem gerar_dados_csv_spec (nasc w : Int) (e : Nat) :
    (gerar_dados_csv nasc (criar_grid_vida w e)).length = e * 52 ∧
    ∀ i, i < e * 52 →
      (gerar_dados_csv nasc (criar_grid_vida w e))[i]? =
        some { ano := i / 52 + 1, semana_do_ano := i % 52 + 1,
               semana_absoluta := i + 1,
               status := if ((i : Nat) : Int) < w then "vivida" else "futura",
               data_aproximada := nasc + 7 * ((i : Nat) : Int) } := by
  rw [gerar_dados_csv_closed]
  refine ⟨by simp, ?_⟩
  intro i hi
  rw [List.getElem?_map, List.getElem?_range hi]
  rfl

/-- Witness for C6 at birth ordinal 726468 (1990-01-01), `w = 3`, `e = 1`,
row index 5. -/
theorem gerar_dados_csv_spec_witness :
    (gerar_dados_csv 726468 (criar_grid_vida 3 1)).length = 1 * 52 ∧
    (gerar_dados_csv 726468 (criar_grid_vida 3 1))[5]? =
      some { ano := 5 / 52 + 1, semana_do_ano := 5 % 52 + 1,
             semana_absoluta := 5 + 1,
             status := if ((5 : Nat) : Int) < 3 then "vivida" else "futura",
             data_aproximada := 726468 + 7 * ((5 : Nat) : Int) } :=
  ⟨(gerar_dados_csv_spec 726468 3 1).1,
   (gerar_dados_csv_spec 726468 3 1).2 5 (by decide)⟩

/-- Claim C2: for `semanas_vividas = w ≥ 0` and `expectativa_vida = e ≥ 1`,
the grid has exactly `min w (e * 52)` cells with status `'vivida'`; when
`w` exceeds `e * 52` every cell is `'vivida'` (and the grid is still built,
no error), and when `w = 0` every cell is `'futura'`. -/
theorem contar_vividas_eq_min (w e : Nat) (he : 1 ≤ e) :
    contar_vividas (criar_grid_vida (w : Int) e) = min w (e * 52) ∧
    (e * 52 < w → ∀ linha ∈ criar_grid_vida (w : Int) e, ∀ c ∈ linha,
      c.status = "vivida") ∧
    (w = 0 → ∀ linha ∈ criar_grid_vida (w : Int) e, ∀ c ∈ linha,
      c.status = "futura") := by
  refine ⟨contar_vividas_grid w e, ?_, ?_⟩
  · intro hgt linha hl c hc
    obtain ⟨hano, hsem, habs, hst⟩ := grid_mem_spec (w : Int) e linha hl c hc
    rw [hst, if_pos]
    rw [habs]
    have : c.ano * 52 + c.semana < w := by nlinarith
    exact_mod_cast this
  · intro hz linha hl c hc
    obtain ⟨-, -, -, hst⟩ := grid_mem_spec (w : Int) e linha hl c hc
    rw [hst, if_neg]
    subst hz
    have : (0 : Int) ≤ (c.semana_absoluta : Int) := Int.ofNat_nonneg _
    omega

/-- Witness for C2 at `w = 3`, `e = 1`. -/
theorem contar_vividas_eq_min_witness :
    contar_vividas (criar_grid_vida ((3 : Nat) : Int) 1) = min 3 (1 * 52) :=
  (contar_vividas_eq_min 3 1 (by decide)).1

/-- Claim C1: in every grid produced by `criar_grid_vida`, a cell has status
`'vivida'` iff its absolute week index `ano * 52 + semana` is strictly below
`semanas_vividas`, and otherwise its status is `'futura'`. -/
theorem grid_status_iff (w : Int) (e : Nat) :
    ∀ linha ∈ criar_grid_vida w e, ∀ c ∈ linha,
      (c.status = "vivida" ↔ ((c.ano * 52 + c.semana : Nat) : Int) < w) ∧
      (¬ ((c.ano * 52 + c.semana : Nat) : Int) < w → c.status = "futura") := by
  intro linha hl c hc
  obtain ⟨-, -, habs, hst⟩ := grid_mem_spec w e linha hl c hc
  rw [habs] at hst
  by_cases h : ((c.ano * 52 + c.semana : Nat) : Int) < w
  · rw [if_pos h] at hst
    exact ⟨⟨fun _ => h, fun _ => hst⟩, fun hn => absurd h hn⟩
  · rw [if_neg h] at hst
    refine ⟨⟨fun hv => ?_, fun hlt => absurd hlt h⟩, fun _ => hst⟩
    rw [hst] at hv
    exact absurd hv (by decide)

/-- Witness for C1 at `semanas_vividas = 1`, `expectativa_vida = 1`, cell
`(0, 0)` of the produced grid. -/
theorem grid_status_iff_witness :
    ("vivida" = "vivida" ↔ ((0 * 52 + 0 : Nat) : Int) < 1) ∧
    (¬ ((0 * 52 + 0 : Nat) : Int) < 1 → "vivida" = "futura") :=
  grid_status_iff 1 1 ((criar_grid_vida 1 1).headD []) (by decide)
    { ano := 0, semana := 0, semana_absoluta := 0, status := "vivida" } (by decide)

/-- Claim C8: for every `expectativa_vida ≥ 1` and every `semanas_vividas`,
the grid has exactly `expectativa_vida` rows of exactly 52 cells, and the
cell at `(ano, semana)` carries `semana_absoluta = ano * 52 + semana` (and
its own coordinates). -/
theorem grid_forma (w : Int) (e : Nat) (he : 1 ≤ e) :
    (criar_grid_vida w e).length = e ∧
    (∀ linha ∈ criar_grid_vida w e, linha.length = 52) ∧
    ∀ y, y < e → ∀ s, s < 52 →
      ((criar_grid_vida w e)[y]?.bind fun linha => linha[s]?) =
        some { ano := y, semana := s, semana_absoluta := y * 52 + s,
               status := if ((y * 52 + s : Nat) : Int) < w
                         then "vivida" else "futura" } := by
  refine ⟨by simp [criar_grid_vida], ?_, ?_⟩
  · intro linha hl
    simp only [criar_grid_vida, List.mem_map, List.mem_range] at hl
    obtain ⟨ano, -, rfl⟩ := hl
    simp
  · intro y hy s hs
    simp [criar_grid_vida, hy, hs]

/-- Witness for C8 at `w = 0`, `e = 1`, cell `(0, 3)`. -/
theorem grid_forma_witness :
    ((criar_grid_vida 0 1)[0]?.bind fun linha => linha[3]?) =
      some { ano := 0, semana := 3, semana_absoluta := 0 * 52 + 3,
             status := if ((0 * 52 + 3 : Nat) : Int) < 0
                       then "vivida" else "futura" } :=
  (grid_forma 0 1 (by decide)).2.2 0 (by decide) 3 (by decide)

/-- Claim C3 counterexample: at `semanas_vividas = 10000`,
`expectativa_vida = 80` (the spec's own example) the code's remaining-weeks
value is not `max 0 (totalWeeks - weeksLived)`: line 148 subtracts without
clamping and the result is the negative number `-5840`. -/
theorem semanas_restantes_nao_clampa :
    semanas_restantes 10000 80 ≠ max 0 ((total_semanas 80 : Int) - 10000) ∧
    semanas_restantes 10000 80 < 0 := by decide

/-- Claim C3 amended: `semanas_restantes` is the unclamped difference
`totalWeeks - weeksLived`; it agrees with `max 0 (totalWeeks - weeksLived)`
exactly when `weeksLived ≤ totalWeeks`, and is strictly negative (not 0)
whenever `weeksLived` exceeds `totalWeeks`. -/
theorem semanas_restantes_spec (w : Int) (e : Nat) :
    (w ≤ (total_semanas e : Int) →
      semanas_restantes w e = max 0 ((total_semanas e : Int) - w)) ∧
    ((total_semanas e : Int) < w → semanas_restantes w e < 0) := by
  unfold semanas_restantes
  constructor <;> intro h <;> omega

/-- Witness for the amended C3 at `(100, 80)` and `(10000, 80)`. -/
theorem semanas_restantes_spec_witness :
    semanas_restantes 100 80 = max 0 ((total_semanas 80 : Int) - 100) ∧
    semanas_restantes 10000 80 < 0 :=
  ⟨(semanas_restantes_spec 100 80).1 (by decide),
   (semanas_restantes_spec 10000 80).2 (by decide)⟩

/-- Claim C4 counterexample: with the reference date one day before the birth
date, `calcular_semanas_vividas` returns `-1 // 7 = -1 < 0`: the result is
neither clamped to 0 nor rejected. -/
theorem calcular_semanas_negativo :
    calcular_semanas_vividas (toordinal 1990 1 2) (toordinal 1990 1 1) < 0 := by
  decide

/-- Claim C4 amended: `calcular_semanas_vividas` is nonnegative when the
reference date is at or after the birth date, and strictly negative when the
reference date precedes the birth date (floor division propagates the sign;
there is no clamping and no input rejection). -/
theorem calcular_semanas_sign (nasc atual : Int) :
    (nasc ≤ atual → 0 ≤ calcular_semanas_vividas nasc atual) ∧
    (atual < nasc → calcular_semanas_vividas nasc atual < 0) := by
  unfold calcular_semanas_vividas
  rw [Int.fdiv_eq_ediv _ (by norm_num)]
  constructor <;> intro h <;> omega

/-- Witness for the amended C4 at ordinals `(5, 12)` and `(12, 5)`. -/
theorem calcular_semanas_sign_witness :
    0 ≤ calcular_semanas_vividas 5 12 ∧ calcular_semanas_vividas 12 5 < 0 :=
  ⟨(calcular_semanas_sign 5 12).1 (by decide),
   (calcular_semanas_sign 12 5).2 (by decide)⟩

/-- Claim C5 counterexample: with `semanas_vividas = 0` and
`expectativa_vida = 80` the loop bound `min(expectativa_vida,
int(idade_atual) + 10)` is 10, so a single bucket `[0, 10)` is produced and
no bucket contains year 50: the buckets do not cover all 80 years. -/
theorem analise_decadas_nao_cobre :
    ¬ ∃ p ∈ analise_decadas 0 80, p.inicio_ano ≤ 50 ∧ 50 < p.fim_ano := by
  decide

/-- Claim C5 amended: the buckets produced by the loop at lines 209-223 are
consecutive 10-year buckets starting at year 0, each truncated to
`expectativa_vida` (so the last may be shorter), with weeks-in-bucket equal
to bucket size times 52 and lived-weeks clamped to `[0, bucket size * 52]`;
there are `⌈min(expectativa_vida, semanas_vividas / 52 + 10) / 10⌉` of them,
and they cover all `expectativa_vida` years only under the condition
`expectativa_vida ≤ semanas_vividas / 52 + 10` (the loop stops ten years
past the current age, not at the life expectancy). -/
theorem analise_decadas_spec (w e : Nat) (he : 1 ≤ e) :
    (analise_decadas w e).head?.map PeriodoDados.inicio_ano = some 0 ∧
    (∀ j p q, (analise_decadas w e)[j]? = some p →
      (analise_decadas w e)[j + 1]? = some q →
      p.fim_ano = q.inicio_ano ∧ p.inicio_ano + 10 = q.inicio_ano) ∧
    (∀ p ∈ analise_decadas w e, p.inicio_ano < p.fim_ano ∧ p.fim_ano ≤ e ∧
      p.semanas_periodo = (p.fim_ano - p.inicio_ano) * 52 ∧
      0 ≤ p.semanas_vividas_periodo ∧
      p.semanas_vividas_periodo ≤ (p.semanas_periodo : Int)) ∧
    (analise_decadas w e).length = (min e (w / 52 + 10) + 9) / 10 ∧
    (e ≤ w / 52 + 10 → ∀ y, y < e →
      ∃ p ∈ analise_decadas w e, p.inicio_ano ≤ y ∧ y < p.fim_ano) := by
  have hk : 1 ≤ (min e (w / 52 + 10) + 9) / 10 := by omega
  refine ⟨?_, ?_, ?_, by simp [analise_decadas], ?_⟩
  · rw [List.head?_eq_getElem?]
    simp only [analise_decadas, List.getElem?_map]
    rw [List.getElem?_range (by omega)]
    rfl
  · intro j p q hp hq
    have hjlen : j + 1 < (analise_decadas w e).length := by
      by_contra hge
      rw [List.getElem?_eq_none (by omega)] at hq
      exact Option.noConfusion hq
    simp only [analise_decadas, List.length_map, List.length_range] at hjlen
    simp only [analise_decadas, List.getElem?_map,
      List.getElem?_range (show j < (min e (w / 52 + 10) + 9) / 10 by omega),
      List.getElem?_range hjlen, Option.map_some] at hp hq
    obtain rfl := Option.some.inj hp
    obtain rfl := Option.some.inj hq
    constructor
    · show min (j * 10 + 10) e = (j + 1) * 10
      omega
    · show j * 10 + 10 = (j + 1) * 10
      omega
  · intro p hp
    simp only [analise_decadas, List.mem_map, List.mem_range] at hp
    obtain ⟨j, hj, rfl⟩ := hp
    refine ⟨?_, ?_, rfl, ?_, ?_⟩
    · show j * 10 < min (j * 10 + 10) e
      omega
    · show min (j * 10 + 10) e ≤ e
      omega
    · show (0 : Int) ≤ max 0 (min ((w : Int) - (j * 10) * 52)
        ((min (j * 10 + 10) e - j * 10) * 52 : Nat))
      exact le_max_left 0 _
    · show max 0 (min ((w : Int) - (j * 10) * 52)
        ((min (j * 10 + 10) e - j * 10) * 52 : Nat)) ≤
        ((min (j * 10 + 10) e - j * 10) * 52 : Nat)
      omega
  · intro hcond y hy
    refine ⟨_, List.mem_map.mpr ⟨y / 10, List.mem_range.mpr (by omega), rfl⟩,
      ?_, ?_⟩
    · show (y / 10) * 10 ≤ y
      omega
    · show y < min ((y / 10) * 10 + 10) e
      omega

/-- Witness for the amended C5 at `w = 5000`, `e = 83` (nine buckets, the
last spanning years 80-82). -/
theorem analise_decadas_spec_witness :
    (analise_decadas 5000 83).head?.map PeriodoDados.inicio_ano = some 0 ∧
    (analise_decadas 5000 83).length = (min 83 (5000 / 52 + 10) + 9) / 10 :=
  ⟨(analise_decadas_spec 5000 83 (by decide)).1,
   (analise_decadas_spec 5000 83 (by decide)).2.2.2.1⟩

/-- Claim C7: for reference dates at or after the birth date,
`calcular_semanas_vividas` is the floor of the day difference divided by 7
(characterized by `7q ≤ d < 7q + 7`), and it is monotonically non-decreasing
as the reference date advances. -/
theorem calcular_semanas_floor_mono (nasc r1 r2 : Int) (h1 : nasc ≤ r1)
    (h12 : r1 ≤ r2) :
    7 * calcular_semanas_vividas nasc r1 ≤ r1 - nasc ∧
    r1 - nasc < 7 * calcular_semanas_vividas nasc r1 + 7 ∧
    calcular_semanas_vividas nasc r1 ≤ calcular_semanas_vividas nasc r2 := by
  unfold calcular_semanas_vividas
  rw [Int.fdiv_eq_ediv _ (by norm_num), Int.fdiv_eq_ediv _ (by norm_num)]
  refine ⟨?_, ?_, ?_⟩ <;> omega

/-- Witness for C7 at ordinals `nasc = 0`, `r1 = 10`, `r2 = 25`. -/
theorem calcular_semanas_floor_mono_witness :
    7 * calcular_semanas_vividas 0 10 ≤ 10 - 0 ∧
    10 - 0 < 7 * calcular_semanas_vividas 0 10 + 7 ∧
    calcular_semanas_vividas 0 10 ≤ calcular_semanas_vividas 0 25 :=
  calcular_semanas_floor_mono 0 10 25 (by decide) (by decide)

/-- Claim C9 counterexample: the number of days between 1990-01-01 and
2024-01-01 is 12418, not 12419 as the spec example states (8 leap days in
34 years: 34 * 365 + 8 = 12418). -/
theorem dias_1990_2024_nao_12419 :
    (toordinal 2024 1 1 : Int) - (toordinal 1990 1 1 : Int) ≠ 12419 := by
  decide

/-- Claim C9 amended: for birthDate 1990-01-01 and referenceDate 2024-01-01
the elapsed days are 12418, `calcular_semanas_vividas` returns 1774, and with
`expectativa_vida = 80` the total is 4160 weeks and 2386 weeks remain. -/
theorem exemplo_1990_2024 :
    (toordinal 2024 1 1 : Int) - (toordinal 1990 1 1 : Int) = 12418 ∧
    calcular_semanas_vividas (toordinal 1990 1 1) (toordinal 2024 1 1) = 1774 ∧
    total_semanas 80 = 4160 ∧
    semanas_restantes 1774 80 = 2386 := by
  decide

/-- Claim C10: for negative `semanas_vividas` the grid is still fully built
(`expectativa_vida` rows, no rejection or clamping) and every cell has status
`'futura'`, since no nonnegative absolute index is below a negative count. -/
theorem grid_negativo_futura (w : Int) (e : Nat) (hw : w < 0) (he : 1 ≤ e) :
    (criar_grid_vida w e).length = e ∧
    ∀ linha ∈ criar_grid_vida w e, ∀ c ∈ linha, c.status = "futura" := by
  refine ⟨by simp [criar_grid_vida], ?_⟩
  intro linha hl c hc
  obtain ⟨-, -, -, hst⟩ := grid_mem_spec w e linha hl c hc
  rw [hst, if_neg]
  have : (0 : Int) ≤ (c.semana_absoluta : Int) := Int.ofNat_nonneg _
  omega

/-- Witness for C10 at `semanas_vividas = -1`, `expectativa_vida = 1`,
cell `(0, 0)`. -/
theorem grid_negativo_futura_witness :
    (criar_grid_vida (-1) 1).length = 1 ∧ "futura" = "futura" :=
  ⟨(grid_negativo_futura (-1) 1 (by decide) (by decide)).1,
   (grid_negativo_futura (-1) 1 (by decide) (by decide)).2
     ((criar_grid_vida (-1) 1).headD []) (by decide)
     { ano := 0, semana := 0, semana_absoluta := 0, status := "futura" }
     (by decide)⟩

end VidaSemanas
